import Mathlib

/-!
Shallow embedding of the RISC-V architecture layer of axhal
(src/axhal/src/arch/riscv/mod.rs).

The hardware state touched by the code (the satp register's fields, the
supervisor-interrupt-enable bit, user memory) is modelled as an explicit
record, and every hardware side effect (writing satp, issuing a full
sfence.vma, issuing the one-byte probe load of __get_user_asm) is also
recorded in an event trace, so that "no flush happened" and "exactly one
probe was issued" are statable.  Machine integers (usize) are Nat; all
operations in this file only compare, subtract under a guard, shift and
mask, so no wrap-around modelling is needed beyond the explicit masks.
-/

/-- Source: pub const TASK_SIZE: usize = 0x40_0000_0000; -/
def TASK_SIZE : Nat := 0x4000000000

/-- Modelled from the spec: PAGE_SIZE_4K comes from crate::mem, which is
not part of the provided source fragment; the spec fixes the paging scheme
to 4 KiB pages, so the constant is 4096. -/
def PAGE_SIZE_4K : Nat := 4096

/-- Source: pub const STACK_SIZE: usize = 32 * PAGE_SIZE_4K; -/
def STACK_SIZE : Nat := 32 * PAGE_SIZE_4K

/-- Source: pub const STACK_TOP: usize = TASK_SIZE; -/
def STACK_TOP : Nat := TASK_SIZE

/-- Source: pub const ELF_ET_DYN_BASE: usize = (TASK_SIZE / 3) * 2; -/
def ELF_ET_DYN_BASE : Nat := (TASK_SIZE / 3) * 2

/-- Source: pub const TASK_UNMAPPED_BASE: usize =
(TASK_SIZE / 3) & !(PAGE_SIZE_4K - 1);  the Rust ! is 64-bit complement. -/
def TASK_UNMAPPED_BASE : Nat := (TASK_SIZE / 3) &&& (2 ^ 64 - 1 - (PAGE_SIZE_4K - 1))

/-- The discriminant of LinuxError::EFAULT in the external axerrno crate. -/
def EFAULT : Nat := 14

/-- The value of linux_err!(EFAULT), i.e. -(LinuxError::EFAULT as isize)
reinterpreted as a usize register value: 2^64 - 14.  The same value is the
err_val constant loaded by the fixup path of __get_user_asm. -/
def linux_err_EFAULT : Nat := 2 ^ 64 - EFAULT

/-- The satp mode value for Sv39 three-level paging (riscv crate
satp::Mode::Sv39). -/
def Sv39 : Nat := 8

/-- A hardware side effect issued by the code: a write of the satp fields,
a full-TLB sfence.vma, or the one-byte probe load (the lb instruction of
__get_user_asm, registered in the exception table). -/
inductive Event where
  | setSatp (mode asid ppn : Nat)
  | sfenceVmaAll
  | probeLoad (addr : Nat)
deriving DecidableEq

/-- The machine state the embedded code reads and writes: the satp
register fields, the sstatus.SIE bit, readable user memory (none at an
address means a load there page-faults), and the trace of hardware side
effects issued so far, in program order. -/
structure MachineState where
  satp_mode : Nat
  satp_asid : Nat
  satp_ppn : Nat
  sie : Bool
  mem : Nat → Option Nat
  trace : List Event

/-- riscv crate satp::set(mode, asid, ppn): writes the satp fields. -/
def satp_set (mode asid ppn : Nat) (s : MachineState) : MachineState :=
  { s with satp_mode := mode, satp_asid := asid, satp_ppn := ppn,
           trace := s.trace ++ [Event.setSatp mode asid ppn] }

/-- riscv crate asm::sfence_vma_all(): full TLB flush. -/
def sfence_vma_all (s : MachineState) : MachineState :=
  { s with trace := s.trace ++ [Event.sfenceVmaAll] }

/-- Source: pub fn enable_irqs() { unsafe { sstatus::set_sie() } } -/
def enable_irqs (s : MachineState) : MachineState :=
  { s with sie := true }

/-- Source: pub fn disable_irqs() { unsafe { sstatus::clear_sie() } } -/
def disable_irqs (s : MachineState) : MachineState :=
  { s with sie := false }

/-- Source: pub fn irqs_enabled() -> bool { sstatus::read().sie() } -/
def irqs_enabled (s : MachineState) : Bool :=
  s.sie

/-- Source: pub fn read_page_table_root() -> PhysAddr {
PhysAddr::from(satp::read().ppn() << 12) } -/
def read_page_table_root (s : MachineState) : Nat :=
  s.satp_ppn <<< 12

/-- Source: pub unsafe fn write_page_table_root(root_paddr: PhysAddr):
reads the old root and, only when it differs from root_paddr, writes
satp (Sv39 mode, asid 0, ppn = root_paddr >> 12) and then issues a full
sfence.vma.  The trace! log line has no machine effect. -/
def write_page_table_root (root_paddr : Nat) (s : MachineState) : MachineState :=
  let old_root := read_page_table_root s
  if old_root ≠ root_paddr then
    sfence_vma_all (satp_set Sv39 0 (root_paddr >>> 12) s)
  else
    s

/-- Source: pub unsafe fn write_page_table_root0(root_paddr: PhysAddr) {
write_page_table_root(root_paddr) } -/
def write_page_table_root0 (root_paddr : Nat) (s : MachineState) : MachineState :=
  write_page_table_root root_paddr s

/-- Source: pub fn access_ok(addr: usize, size: usize) -> bool {
size <= TASK_SIZE && addr <= TASK_SIZE - size }.  The Rust && short
circuits, so TASK_SIZE - size is only evaluated under size <= TASK_SIZE
and never underflows; Nat truncated subtraction coincides with it there. -/
def access_ok (addr size : Nat) : Bool :=
  decide (size ≤ TASK_SIZE) && decide (addr ≤ TASK_SIZE - size)

/-- Source: pub fn __get_user_asm(ptr: usize) -> (u8, usize): issues one
lb from ptr.  If the load succeeds, x is the loaded byte and err stays 0.
If it faults, the exception-table fixup path runs: err is loaded with
-(LinuxError::EFAULT as isize) and x with 0, and control resumes after
the load.  Either way exactly one probe load was issued. -/
def __get_user_asm (ptr : Nat) (s : MachineState) : (Nat × Nat) × MachineState :=
  let s1 := { s with trace := s.trace ++ [Event.probeLoad ptr] }
  match s.mem ptr with
  | some v => ((v % 256, 0), s1)
  | none => ((0, linux_err_EFAULT), s1)

/-- Source: pub fn fault_in_readable(addr: usize, size: usize) -> usize:
if !access_ok(addr, size) return linux_err!(EFAULT); otherwise run
__get_user_asm(addr), discard the loaded byte, and return err if it is
nonzero, else 0.  The error! log line has no machine effect. -/
def fault_in_readable (addr size : Nat) (s : MachineState) : Nat × MachineState :=
  if !(access_ok addr size) then
    (linux_err_EFAULT, s)
  else
    let res := __get_user_asm addr s
    if res.1.2 ≠ 0 then
      (res.1.2, res.2)
    else
      (0, res.2)

/-- A concrete machine state with no readable memory, root ppn 0, used by
the witnesses. -/
def initState : MachineState :=
  { satp_mode := 0, satp_asid := 0, satp_ppn := 0, sie := false,
    mem := fun _ => none, trace := [] }

/-- A concrete machine state in which every byte is readable (value 65). -/
def memState : MachineState :=
  { initState with mem := fun _ => some 65 }

/-- Number of full TLB flushes in a trace. -/
def countFlush : List Event → Nat
  | [] => 0
  | Event.sfenceVmaAll :: rest => countFlush rest + 1
  | _ :: rest => countFlush rest

lemma countFlush_append (a b : List Event) :
    countFlush (a ++ b) = countFlush a + countFlush b := by
  induction a with
  | nil => simp [countFlush]
  | cons e t ih =>
    cases e
    all_goals simp [countFlush, ih]
    all_goals omega

lemma shr_shl_align (r : Nat) (h : r % 4096 = 0) : (r >>> 12) <<< 12 = r := by
  rw [Nat.shiftRight_eq_div_pow, Nat.shiftLeft_eq]
  have h12 : (2 : Nat) ^ 12 = 4096 := by norm_num
  rw [h12]
  omega

lemma read_aligned_aux (s : MachineState) : read_page_table_root s % 4096 = 0 := by
  rw [read_page_table_root, Nat.shiftLeft_eq]
  have h12 : (2 : Nat) ^ 12 = 4096 := by norm_num
  rw [h12]
  exact Nat.mul_mod_left _ _

lemma write_same (r : Nat) (s : MachineState) (h : read_page_table_root s = r) :
    write_page_table_root r s = s := by
  simp [write_page_table_root, h]

/-- Shared shape of the in-bounds path of fault_in_readable: one probe
load is appended to the trace, a readable byte yields result 0, an
unreadable byte yields result linux_err_EFAULT. -/
lemma fault_in_readable_ok (addr size : Nat) (s : MachineState)
    (h : access_ok addr size = true) :
    (fault_in_readable addr size s).2.trace = s.trace ++ [Event.probeLoad addr] ∧
    (∀ v, s.mem addr = some v → (fault_in_readable addr size s).1 = 0) ∧
    (s.mem addr = none → (fault_in_readable addr size s).1 = linux_err_EFAULT) := by
  have hne : linux_err_EFAULT ≠ 0 := by decide
  refine ⟨?_, ?_, ?_⟩
  · rcases hm : s.mem addr with _ | v <;>
      simp [fault_in_readable, h, __get_user_asm, hm, hne]
  · intro v hv
    simp [fault_in_readable, h, __get_user_asm, hv]
  · intro hm
    simp [fault_in_readable, h, __get_user_asm, hm, hne]

/-- C8: after disable_irqs the query irqs_enabled returns false, and after
enable_irqs it returns true, from every starting interrupt-mask state. -/
theorem irq_round_trip (s : MachineState) :
    irqs_enabled (disable_irqs s) = false ∧ irqs_enabled (enable_irqs s) = true :=
  ⟨rfl, rfl⟩

/-- C6: write_page_table_root0 behaves identically to
write_page_table_root on every root and every machine state. -/
theorem write_page_table_root0_eq (root : Nat) (s : MachineState) :
    write_page_table_root0 root s = write_page_table_root root s :=
  rfl

/-- C9: STACK_TOP equals TASK_SIZE; STACK_SIZE is 32 pages of 4096 bytes;
ELF_ET_DYN_BASE is (TASK_SIZE / 3) * 2; TASK_UNMAPPED_BASE is TASK_SIZE / 3
masked down to a page boundary; with the concrete numeric values. -/
theorem layout_constants :
    STACK_TOP = TASK_SIZE ∧
    STACK_SIZE = 32 * PAGE_SIZE_4K ∧
    PAGE_SIZE_4K = 4096 ∧
    ELF_ET_DYN_BASE = (TASK_SIZE / 3) * 2 ∧
    TASK_UNMAPPED_BASE = (TASK_SIZE / 3) &&& (2 ^ 64 - 1 - (PAGE_SIZE_4K - 1)) ∧
    STACK_SIZE = 0x20000 ∧
    ELF_ET_DYN_BASE = 0x2AAAAAAAAA ∧
    TASK_UNMAPPED_BASE = 0x1555555000 := by
  refine ⟨rfl, rfl, rfl, rfl, rfl, by decide, by decide, by decide⟩

/-- C3: access_ok addr size is true iff size <= TASK_SIZE and
addr <= TASK_SIZE - size, equivalently iff addr + size <= TASK_SIZE
without wraparound; TASK_SIZE is 0x40_0000_0000, access_ok at
(0x40_0000_0000, 1) is false and at (0x3F_FFFF_FFFF, 1) is true. -/
theorem access_ok_spec :
    (∀ addr size, access_ok addr size = true ↔
      size ≤ TASK_SIZE ∧ addr ≤ TASK_SIZE - size) ∧
    (∀ addr size, access_ok addr size = true ↔
      size ≤ TASK_SIZE ∧ addr + size ≤ TASK_SIZE) ∧
    TASK_SIZE = 0x4000000000 ∧
    access_ok 0x4000000000 1 = false ∧
    access_ok 0x3FFFFFFFFF 1 = true := by
  refine ⟨?_, ?_, rfl, by decide, by decide⟩
  · intro addr size
    simp [access_ok]
  · intro addr size
    simp only [access_ok, Bool.and_eq_true, decide_eq_true_eq, TASK_SIZE]
    omega

/-- C1: whenever the bounds check access_ok fails, fault_in_readable
returns the EFAULT error code and leaves the machine state (hence the
event trace) untouched: no hardware probe load is issued. -/
theorem fault_in_readable_bounds_reject (addr size : Nat) (s : MachineState)
    (h : access_ok addr size = false) :
    fault_in_readable addr size s = (linux_err_EFAULT, s) := by
  simp [fault_in_readable, h]

/-- C1 witness: at (TASK_SIZE, 1) the bounds check fails and the probe
returns EFAULT with the state unchanged. -/
theorem fault_in_readable_bounds_reject_witness :
    access_ok 0x4000000000 1 = false ∧
    fault_in_readable 0x4000000000 1 initState = (linux_err_EFAULT, initState) :=
  ⟨by decide, fault_in_readable_bounds_reject 0x4000000000 1 initState (by decide)⟩

/-- C2: whenever the bounds check passes, fault_in_readable issues exactly
one byte-sized probe load at addr (the trace grows by exactly that one
event); if the byte is readable the result is 0 (the loaded value is
discarded), and if the load faults the result is the nonzero fixup error
code linux_err_EFAULT. -/
theorem fault_in_readable_probe (addr size : Nat) (s : MachineState)
    (h : access_ok addr size = true) :
    (fault_in_readable addr size s).2.trace = s.trace ++ [Event.probeLoad addr] ∧
    (∀ v, s.mem addr = some v → (fault_in_readable addr size s).1 = 0) ∧
    (s.mem addr = none →
      (fault_in_readable addr size s).1 = linux_err_EFAULT ∧ linux_err_EFAULT ≠ 0) := by
  have hmain := fault_in_readable_ok addr size s h
  exact ⟨hmain.1, hmain.2.1, fun hm => ⟨hmain.2.2 hm, by decide⟩⟩

/-- C2 witness: at (0, 1), in bounds, the probe at a readable byte returns
0 and at an unreadable byte returns EFAULT, and exactly one probe event is
recorded. -/
theorem fault_in_readable_probe_witness :
    access_ok 0 1 = true ∧
    (fault_in_readable 0 1 memState).1 = 0 ∧
    (fault_in_readable 0 1 initState).1 = linux_err_EFAULT ∧
    (fault_in_readable 0 1 initState).2.trace = [Event.probeLoad 0] := by
  have hmem := fault_in_readable_probe 0 1 memState (by decide)
  have hnone := fault_in_readable_probe 0 1 initState (by decide)
  refine ⟨by decide, hmem.2.1 65 rfl, (hnone.2.2 rfl).1, ?_⟩
  have ht := hnone.1
  simpa [initState] using ht

/-- C4: write_page_table_root first reads the active root; if it already
equals the requested root nothing happens (no satp install, no flush, the
state is unchanged); otherwise it installs root >> 12 into the satp ppn
field and issues a full sfence.vma, in that order. -/
theorem write_page_table_root_cases (root : Nat) (s : MachineState) :
    (read_page_table_root s = root → write_page_table_root root s = s) ∧
    (read_page_table_root s ≠ root →
      (write_page_table_root root s).satp_ppn = root >>> 12 ∧
      (write_page_table_root root s).trace
        = s.trace ++ [Event.setSatp Sv39 0 (root >>> 12), Event.sfenceVmaAll]) := by
  constructor
  · intro h
    simp [write_page_table_root, h]
  · intro h
    constructor <;> simp [write_page_table_root, satp_set, sfence_vma_all, h]

/-- C4 witness: from the initial state (root 0), installing root 0 changes
nothing, while installing root 4096 records the satp install followed by
the full flush. -/
theorem write_page_table_root_cases_witness :
    write_page_table_root 0 initState = initState ∧
    (write_page_table_root 4096 initState).trace
      = [Event.setSatp Sv39 0 (4096 >>> 12), Event.sfenceVmaAll] := by
  refine ⟨(write_page_table_root_cases 0 initState).1 rfl, ?_⟩
  have h := ((write_page_table_root_cases 4096 initState).2 (by decide)).2
  simpa [initState] using h

/-- C5: for a page-aligned root r, writing r twice in a row flushes the
TLB at most once (the second write changes nothing at all), and the root
read back after either write is r. -/
theorem write_page_table_root_idem (r : Nat) (s : MachineState)
    (h : r % 4096 = 0) :
    read_page_table_root (write_page_table_root r s) = r ∧
    write_page_table_root r (write_page_table_root r s) = write_page_table_root r s ∧
    countFlush (write_page_table_root r (write_page_table_root r s)).trace
      ≤ countFlush s.trace + 1 := by
  have hread : read_page_table_root (write_page_table_root r s) = r := by
    by_cases hc : read_page_table_root s = r
    · rw [write_same r s hc]
      exact hc
    · have : write_page_table_root r s
          = sfence_vma_all (satp_set Sv39 0 (r >>> 12) s) := by
        simp [write_page_table_root, hc]
      rw [this]
      show (r >>> 12) <<< 12 = r
      exact shr_shl_align r h
  have hsecond := write_same r (write_page_table_root r s) hread
  refine ⟨hread, hsecond, ?_⟩
  rw [hsecond]
  by_cases hc : read_page_table_root s = r
  · rw [write_same r s hc]
    omega
  · have : write_page_table_root r s
        = sfence_vma_all (satp_set Sv39 0 (r >>> 12) s) := by
      simp [write_page_table_root, hc]
    rw [this]
    show countFlush (s.trace ++ [Event.setSatp Sv39 0 (r >>> 12)] ++ [Event.sfenceVmaAll])
      ≤ countFlush s.trace + 1
    rw [countFlush_append, countFlush_append]
    simp [countFlush]

/-- C5 witness: writing the page-aligned root 4096 twice from the initial
state reads back 4096 and performs exactly one flush in total. -/
theorem write_page_table_root_idem_witness :
    (4096 : Nat) % 4096 = 0 ∧
    read_page_table_root (write_page_table_root 4096 initState) = 4096 ∧
    countFlush (write_page_table_root 4096
      (write_page_table_root 4096 initState)).trace ≤ countFlush initState.trace + 1 := by
  have h := write_page_table_root_idem 4096 initState (by decide)
  exact ⟨by decide, h.1, h.2.2⟩

/-- C7: read_page_table_root always returns a multiple of 4096 (the ppn
shifted left by 12), in every machine state, and in particular after any
install by write_page_table_root, which stores only root >> 12. -/
theorem read_page_table_root_aligned (s : MachineState) :
    read_page_table_root s % 4096 = 0 ∧
    ∀ r, read_page_table_root (write_page_table_root r s) % 4096 = 0 :=
  ⟨read_aligned_aux s, fun _ => read_aligned_aux _⟩

/-- C10: for every addr <= TASK_SIZE (including addr = TASK_SIZE itself),
access_ok addr 0 is true, and fault_in_readable addr 0 does not
short-circuit: it still issues the one-byte probe load at addr, whose
outcome decides the result even though zero bytes were requested. -/
theorem fault_in_readable_zero_size (addr : Nat) (s : MachineState)
    (h : addr ≤ TASK_SIZE) :
    access_ok addr 0 = true ∧
    (fault_in_readable addr 0 s).2.trace = s.trace ++ [Event.probeLoad addr] ∧
    (∀ v, s.mem addr = some v → (fault_in_readable addr 0 s).1 = 0) ∧
    (s.mem addr = none → (fault_in_readable addr 0 s).1 = linux_err_EFAULT) := by
  have hok : access_ok addr 0 = true := by
    simp [access_ok]
    exact h
  have hmain := fault_in_readable_ok addr 0 s hok
  exact ⟨hok, hmain.1, hmain.2.1, hmain.2.2⟩

/-- C10 witness: at addr = TASK_SIZE (one past the last user byte) with
size 0, the bounds check passes and the probe load at TASK_SIZE is still
issued, returning EFAULT there since that byte is unreadable. -/
theorem fault_in_readable_zero_size_witness :
    TASK_SIZE ≤ TASK_SIZE ∧
    access_ok TASK_SIZE 0 = true ∧
    (fault_in_readable TASK_SIZE 0 initState).2.trace = [Event.probeLoad TASK_SIZE] ∧
    (fault_in_readable TASK_SIZE 0 initState).1 = linux_err_EFAULT := by
  have h := fault_in_readable_zero_size TASK_SIZE initState (le_refl _)
  refine ⟨le_refl _, h.1, ?_, h.2.2.2 rfl⟩
  simpa [initState] using h.2.1
